import Mathlib

/-!
Shallow embedding of the `paul-allen-agent` repository (a retrieval-augmented
chatbot with an offline ingestion script) and proofs about its specified
behaviour.

Source files embedded:
  * `src/router.py`            — the static route table.
  * `src/app.py`               — module initialization, `on_chat_start`,
                                 `on_message` (Chainlit session handlers).
  * `src/data_ingest/ingest.py` — the `main` ingestion pipeline.

External collaborators (Pinecone, OpenAI, the semantic-router classifier,
the LlamaIndex agent, Chainlit's UI transport) are opaque services: they are
modelled as oracle parameters (classification results, agent build outcome,
stream outcome) and as events recorded in an effect trace, exactly where the
repository code invokes them.  Machine behaviour the repository itself
implements (environment reads, truthiness checks, `int()` parsing with
fallback, control flow, the token-accumulation loop, the index
delete/create/upsert sequence) is embedded faithfully, statement by
statement.
-/

namespace PaulAllenAgent

/-! ## Route table — `src/router.py` -/

/-- A semantic-router `Route`: a name and its example utterances. -/
structure Route where
  name : String
  utterances : List String
  deriving DecidableEq, Repr

/-- `paul_allen_route` from `src/router.py` lines 3–36. -/
def paul_allen_route : Route :=
  { name := "paul_allen_questions"
    utterances :=
      [ "who is paul allen?"
      , "tell me about paul allen's life"
      , "what is paul allen known for?"
      , "what was his role at microsoft?"
      , "tell me about his business ventures and investments"
      , "what is vulcan inc?"
      , "did he have any patents?"
      , "what's the story behind Traf-O-Data?"
      , "describe paul allen's philanthropy"
      , "what are the Allen Institutes?"
      , "did he sign the giving pledge?"
      , "tell me about his contributions to science and research"
      , "what sports teams did he own?"
      , "tell me about his yachts, Octopus and Tatoosh"
      , "was he a musician?"
      , "did he write a book?"
      , "when did paul allen die?"
      , "what was his involvement with SpaceShipOne?"
      , "tell me about the Stratolaunch project"
      , "was the bell from HMS Hood successfully retrieved?" ] }

/-- `greetings_route` from `src/router.py` lines 38–41. -/
def greetings_route : Route :=
  { name := "greetings"
    utterances :=
      ["hello", "hi", "hey", "good morning", "good afternoon",
       "how are you today?"] }

/-- `farewells_route` from `src/router.py` lines 43–46. -/
def farewells_route : Route :=
  { name := "farewells"
    utterances :=
      ["goodbye", "bye", "see you later", "take care", "have a good one"] }

/-- `gratitude_route` from `src/router.py` lines 48–51. -/
def gratitude_route : Route :=
  { name := "gratitude"
    utterances :=
      ["thank you", "thanks", "appreciate it", "thanks for your help",
       "you're welcome"] }

/-- `allowed_routes` from `src/router.py` line 54. -/
def allowed_routes : List Route :=
  [paul_allen_route, greetings_route, farewells_route, gratitude_route]

/-- The hard-coded list from `src/app.py` line 145:
`allowed_route_names = ["paul_allen_questions", "greetings", "farewells", "gratitude"]`. -/
def allowed_route_names : List String :=
  ["paul_allen_questions", "greetings", "farewells", "gratitude"]

/-! ## Environment model

`os.getenv` returns the variable's value or `None`.  Python truthiness of a
string value: `None` and the empty string are falsy. -/

/-- A process environment: `os.getenv`. -/
def Env : Type := String → Option String

/-- Python truthiness of an `os.getenv` result (`not value` in the source):
`None` and `""` are falsy, every other string is truthy. -/
def truthy : Option String → Bool
  | none => false
  | some s => s ≠ ""

/-! ## Python `int()` parsing — used for `EMBEDDING_DIM`

`int(s)` on a string strips surrounding whitespace, accepts an optional sign
followed by decimal digits with single underscores allowed between digits,
and raises `ValueError` otherwise.  `int()` on the integer default `1024`
(as in `app.py` line 37) trivially succeeds. -/

/-- Whitespace stripped by Python's `int()` (the ASCII cases). -/
def isPySpace (c : Char) : Bool :=
  c = ' ' || c = '\t' || c = '\n' || c = '\x0d' || c = '\x0b' || c = '\x0c'

/-- Digit run validity: nonempty decimal digits, single underscores allowed
only between digits. -/
def digitsTail : List Char → Bool
  | [] => true
  | '_' :: c :: rest => c.isDigit && digitsTail rest
  | '_' :: [] => false
  | c :: rest => c.isDigit && digitsTail rest

/-- A valid digit run starts with a digit. -/
def digitsOk : List Char → Bool
  | [] => false
  | c :: rest => c.isDigit && digitsTail rest

/-- Numeric value of a digit run, ignoring underscores. -/
def digitsVal (cs : List Char) : Nat :=
  cs.foldl (fun acc c => if c = '_' then acc else acc * 10 + (c.toNat - 48)) 0

/-- Python `int(s)` for a string `s`: `some n` on success, `none` when it
raises `ValueError`. -/
def pyInt (s : String) : Option Int :=
  let cs := ((s.toList.dropWhile isPySpace).reverse.dropWhile isPySpace).reverse
  match cs with
  | '+' :: rest => if digitsOk rest then some (digitsVal rest : Int) else none
  | '-' :: rest => if digitsOk rest then some (-(digitsVal rest : Int)) else none
  | rest => if digitsOk rest then some (digitsVal rest : Int) else none

/-- Log levels of the Python `logging` calls appearing in the sources. -/
inductive LogLevel
  | info
  | warning
  | error
  deriving DecidableEq, Repr

/-- The `EMBEDDING_DIM` computation shared verbatim (up to the default being
the int `1024` vs the string `"1024"`, which parse identically) by
`src/app.py` lines 36–40 and `src/data_ingest/ingest.py` lines 61–65:
`try: embedding_dim = int(os.getenv("EMBEDDING_DIM", 1024)) except (ValueError, TypeError): logging.error(...); embedding_dim = 1024`.
Returns the resulting dimension and the level of the log emitted by the
fallback branch, if any. -/
def embeddingDimOf (v : Option String) : Int × Option LogLevel :=
  match v with
  | none => (1024, none)
  | some s =>
    match pyInt s with
    | some n => (n, none)
    | none => (1024, some LogLevel.error)

/-- The message logged by the `EMBEDDING_DIM` fallback branch in both files. -/
def dimFallbackMsg : String :=
  "EMBEDDING_DIM environment variable must be a valid integer. Defaulting to 1024."

/-- The log entries (level and message) emitted while computing
`embedding_dim`: one `logging.error` when the fallback fires, none
otherwise. -/
def embeddingDimLogs (v : Option String) : List (LogLevel × String) :=
  match (embeddingDimOf v).2 with
  | some lvl => [(lvl, dimFallbackMsg)]
  | none => []

/-! ## Chat application model — `src/app.py`

Observable effects of the chat application, recorded in order of
occurrence.  `send` is a Chainlit `cl.Message(...).send()`; `netCall` is an
operation that contacts a remote service (OpenAI, Pinecone, or the
semantic-router sync); `streamToken` is `msg.stream_token(token)`;
`updateMsg` is the final `msg.update()` with `msg.content` set. -/

/-- The kind of an outbound UI message, determined by its elements. -/
inductive MsgKind
  | header
  | image
  | plain
  deriving DecidableEq, Repr

/-- One observable effect of the chat application. -/
inductive AppEvent
  | log (lvl : LogLevel) (msg : String)
  | send (kind : MsgKind) (content : String)
  | netCall (op : String)
  | streamToken (tok : String)
  | updateMsg (content : String)
  deriving DecidableEq, Repr

/-- Whether an event contacts a remote service. -/
def AppEvent.isNet : AppEvent → Bool
  | .netCall _ => true
  | _ => false

/-- Whether an event is an outbound UI message send. -/
def AppEvent.isSend : AppEvent → Bool
  | .send _ _ => true
  | _ => false

/-- Whether an event is a warning-level log entry. -/
def AppEvent.isWarningLog : AppEvent → Bool
  | .log .warning _ => true
  | _ => false

/-- Outcome of `agent.stream_chat(content)` and of iterating
`response_stream.response_gen` — both delegated to the external agent:
either the call itself raises, or the generator yields a finite sequence of
tokens and then either completes or raises. -/
inductive StreamOutcome
  | ok (tokens : List String)
  | errAfter (tokens : List String) (e : String)
  | errCall (e : String)
  deriving DecidableEq, Repr

/-- The external reasoning agent, abstracted to its one operation used by
`on_message`: `stream_chat`. -/
structure Agent where
  streamChat : String → StreamOutcome

/-- How a Python callable terminates: fall off the end, or propagate an
uncaught exception. -/
inductive HandlerResult
  | returned
  | raised (e : String)
  deriving DecidableEq, Repr

/-- Configuration produced by the module-level initialization of
`src/app.py` when it does not raise. -/
structure AppInit where
  pineconeIndexName : Option String
  openaiApiKey : String
  embeddingModel : String
  embeddingDim : Int
  routerReady : Bool
  deriving Repr

/-- The embedding dimension recorded in a module-initialization result
(`0` when initialization raised and no dimension was published). -/
def appInitDim : Except String AppInit → Int
  | .ok i => i.embeddingDim
  | .error _ => 0

/-- Module-level initialization of `src/app.py` (lines 31–60): read
`PINECONE_INDEX_NAME`, `OPENAI_API_KEY`, `EMBEDDING_MODEL` (default
`"text-embedding-3-small"`), parse `EMBEDDING_DIM` with fallback, raise
`ValueError` when `OPENAI_API_KEY` is falsy, then configure the embedding
model and construct the semantic router inside a `try` whose exception
branch only logs.  `routerBuild` is the oracle for the external
encoder/router construction (which syncs route embeddings remotely). -/
def moduleInit (env : Env) (routerBuild : Except String Unit) :
    Except String AppInit × List AppEvent :=
  let indexName := env "PINECONE_INDEX_NAME"
  let openaiKey := env "OPENAI_API_KEY"
  let model := (env "EMBEDDING_MODEL").getD "text-embedding-3-small"
  let dimRes := embeddingDimOf (env "EMBEDDING_DIM")
  let dimEvs : List AppEvent :=
    (embeddingDimLogs (env "EMBEDDING_DIM")).map fun p => .log p.1 p.2
  if truthy openaiKey then
    let base : AppInit :=
      { pineconeIndexName := indexName
        openaiApiKey := openaiKey.getD ""
        embeddingModel := model
        embeddingDim := dimRes.1
        routerReady := false }
    match routerBuild with
    | .ok _ =>
      (.ok { base with routerReady := true },
       dimEvs ++ [.netCall "SemanticRouter",
                  .log .info "Semantic Router layer initialized successfully."])
    | .error e =>
      (.ok base,
       dimEvs ++ [.netCall "SemanticRouter",
                  .log .error ("Error initializing Semantic Router: " ++ e)])
  else
    (.error "OPENAI_API_KEY not found in .env file.", dimEvs)

/-- The welcome text sent as the third introductory message
(`src/app.py` line 91). -/
def welcomeText : String :=
  "Hello! Please ask me anything about Microsoft's co-founder - Paul Allen, his life, career, or interests. I am here to help!"

/-- The three introductory sends of `on_chat_start` (lines 78–93): a header
message (empty content, a `cl.Text` element), an image message (empty
content, a `cl.Image` element), and the welcome text. -/
def introEvents : List AppEvent :=
  [.send .header "", .send .image "", .send .plain welcomeText]

/-- `on_chat_start` (`src/app.py` lines 66–130): emit the three
introductory messages, then inside `try`: log, read `PINECONE_API_KEY` and
`PINECONE_REGION`, raise `ValueError` if either is falsy, otherwise connect
to Pinecone and build the agent (external; oracle `build`).  Any exception
is caught: it is logged and an apology message is sent; on success the
agent is stored in the session.  Returns the session's agent slot and the
event trace. -/
def on_chat_start (env : Env) (build : Except String Agent) :
    Option Agent × List AppEvent :=
  let connectLog : AppEvent :=
    .log .info "Connecting to Pinecone and setting up the agent..."
  let key := env "PINECONE_API_KEY"
  let region := env "PINECONE_REGION"
  if truthy key && truthy region then
    match build with
    | .ok a =>
      (some a,
       introEvents ++ [connectLog, .netCall "agent_setup",
                       .log .info "LlamaIndex agent setup complete."])
    | .error e =>
      (none,
       introEvents ++ [connectLog, .netCall "agent_setup",
                       .log .error ("Error during chat start: " ++ e),
                       .send .plain ("Sorry, an error occurred during setup: " ++ e)])
  else
    let e := "PINECONE_API_KEY or PINECONE_ENVIRONMENT not found in .env file."
    (none,
     introEvents ++ [connectLog,
                     .log .error ("Error during chat start: " ++ e),
                     .send .plain ("Sorry, an error occurred during setup: " ++ e)])

/-- The fixed refusal reply (`src/app.py` lines 149–151). -/
def refusalText : String :=
  "I apologize, but I am an AI agent designed specifically to answer questions about Paul Allen. I cannot assist with other topics."

/-- The fixed reply when the agent is unset (`src/app.py` line 157). -/
def agentUnavailableText : String :=
  "Sorry, the agent is not available."

/-- The reply when the module-level router is undefined (`src/app.py`
line 141). -/
def routerUninitText : String :=
  "Semantic Router is not initialized. Please check server logs."

/-- The token-streaming loop of `on_message` (lines 166–169):
`response_text = ""` then `for token in response_gen: response_text += token; await msg.stream_token(token)`.
Returns the accumulated text and the `streamToken` events in order. -/
def streamLoop (acc : String) : List String → String × List AppEvent
  | [] => (acc, [])
  | t :: ts =>
    let r := streamLoop (acc ++ t) ts
    (r.1, .streamToken t :: r.2)

/-- `on_message` (`src/app.py` lines 133–172).  `routerDefined` is whether
the module-level `router_layer` global exists (line 140); `classify` is the
external router call `router_layer(message.content)` returning the matched
route name or `None`; `agent` is the session's agent slot; `content` is the
incoming message text. -/
def on_message (routerDefined : Bool) (classify : String → Option String)
    (agent : Option Agent) (content : String) :
    HandlerResult × List AppEvent :=
  if !routerDefined then
    (.returned, [.send .plain routerUninitText])
  else
    let classifyEv : AppEvent := .netCall "router_classify"
    let routeName := classify content
    if !(allowed_route_names.any fun s => routeName = some s) then
      (.returned, [classifyEv, .send .plain refusalText])
    else
      match agent with
      | none => (.returned, [classifyEv, .send .plain agentUnavailableText])
      | some a =>
        match a.streamChat content with
        | .errCall e => (.raised e, [classifyEv, .netCall "stream_chat"])
        | .errAfter ts e =>
          let r := streamLoop "" ts
          (.raised e,
           [classifyEv, .netCall "stream_chat", .send .plain ""] ++ r.2)
        | .ok ts =>
          let r := streamLoop "" ts
          (.returned,
           [classifyEv, .netCall "stream_chat", .send .plain ""] ++ r.2
             ++ [.updateMsg r.1])

/-- A whole chat session as the UI framework drives it: `on_chat_start`
runs once, then `on_message` runs for each received message in order. -/
def runSession (env : Env) (build : Except String Agent)
    (routerDefined : Bool) (classify : String → Option String)
    (msgs : List String) : List AppEvent :=
  let start := on_chat_start env build
  start.2 ++ (msgs.map fun m => (on_message routerDefined classify start.1 m).2).flatten

/-! ## Ingestion pipeline model — `src/data_ingest/ingest.py`

The remote Pinecone service is modelled as an association list from index
names to index states; each remote operation the script performs is also
recorded as an event.  Reading the local input file is a local effect, not
a remote call. -/

/-- The state of one remote Pinecone index. -/
structure IndexState where
  dim : Int
  metric : String
  vectorCount : Nat
  deriving DecidableEq, Repr

/-- The remote Pinecone service state: existing indexes by name. -/
def PineconeWorld : Type := List (String × IndexState)

/-- One observable effect of the ingestion script. -/
inductive IngestEvent
  | log (lvl : LogLevel) (msg : String)
  | readLocalFile (path : String)
  | remoteListIndexes
  | remoteDeleteIndex (name : String)
  | remoteCreateIndex (name : String) (dim : Int) (metric : String)
      (cloud : Option String) (region : Option String)
  | remoteEmbedUpsert (name : String) (nchunks : Nat)
  deriving DecidableEq, Repr

/-- Whether an ingestion event is a remote (network) call. -/
def IngestEvent.isRemote : IngestEvent → Bool
  | .log _ _ => false
  | .readLocalFile _ => false
  | _ => true

/-- How a run of the script's `main` terminates: fall off the end
(process exit 0), `sys.exit(code)`, or an uncaught exception
(process exit 1). -/
inductive ExitResult
  | normal
  | exited (code : Nat)
  | raised (e : String)
  deriving DecidableEq, Repr

/-- The process exit status corresponding to an `ExitResult`. -/
def ExitResult.exitCode : ExitResult → Nat
  | .normal => 0
  | .exited c => c
  | .raised _ => 1

/-- Result of one run of `main`: termination, event trace, final remote
state. -/
structure IngestRun where
  result : ExitResult
  trace : List IngestEvent
  world : PineconeWorld

/-- Look up an index by name in the remote state (`pc.list_indexes().names()`
membership / `pc.Index(name)`). -/
def lookupIndex (name : String) (w : PineconeWorld) : Option IndexState :=
  match w with
  | [] => none
  | (n, st) :: rest => if n = name then some st else lookupIndex name rest

/-- Remove an index by name (`pc.delete_index(name)`). -/
def deleteIndex (name : String) (w : PineconeWorld) : PineconeWorld :=
  w.filter fun p => p.1 ≠ name

/-- Whether an index of this name exists
(`pinecone_index_name in pc.list_indexes().names()`). -/
def indexExists (name : String) (w : PineconeWorld) : Bool :=
  (lookupIndex name w).isSome

/-- The validation error raised by `ingest.py` line 69. -/
def ingestValidationMsg : String :=
  "PINECONE_INDEX_NAME, PINECONE_API_KEY, or OPENAI_API_KEY is not set in the .env file."

/-- `main` of `src/data_ingest/ingest.py` (lines 33–127).
Parameters: the environment; the `--input-file` argument (its default is
`"./data_ingest/paul_allen_data.txt"`); the local filesystem's existence
predicate; the documents `SimpleDirectoryReader` loads from the file;
`chunkCount`, the number of chunks the external `SentenceSplitter`
(chunk_size 256, chunk_overlap 20) produces from those documents — a
deterministic function of the documents; and the initial remote state. -/
def ingestMain (env : Env) (inputFile : String) (fileExists : String → Bool)
    (docs : List String) (chunkCount : List String → Nat)
    (w : PineconeWorld) : IngestRun :=
  let indexName := (env "PINECONE_INDEX_NAME").getD ""
  let cloud := env "PINECONE_CLOUD"
  let region := env "PINECONE_REGION"
  let dimRes := embeddingDimOf (env "EMBEDDING_DIM")
  let dimEvs : List IngestEvent :=
    (embeddingDimLogs (env "EMBEDDING_DIM")).map fun p => .log p.1 p.2
  if !(truthy (env "PINECONE_INDEX_NAME") && truthy (env "PINECONE_API_KEY")
        && truthy (env "OPENAI_API_KEY")) then
    { result := .raised ingestValidationMsg, trace := dimEvs, world := w }
  else
    let evs1 := dimEvs ++
      [.log .info ("Configuration loaded. Using Pinecone index: '" ++ indexName ++ "'")]
    if !fileExists inputFile then
      { result := .exited 1
        trace := evs1 ++ [.log .error ("Input file not found at: " ++ inputFile)]
        world := w }
    else
      let evs2 := evs1 ++
        [.log .info ("Loading data from '" ++ inputFile ++ "'..."),
         .readLocalFile inputFile,
         .log .info ("Successfully loaded " ++ toString docs.length ++ " document(s)."),
         .log .info "Initializing Pinecone client...",
         .remoteListIndexes]
      let (evs3, w1) :=
        if indexExists indexName w then
          (evs2 ++ [.log .warning ("Pinecone index '" ++ indexName
                      ++ "' already exists. Deleting it."),
                    .remoteDeleteIndex indexName],
           deleteIndex indexName w)
        else (evs2, w)
      let n := chunkCount docs
      { result := .normal
        trace := evs3 ++
          [.log .info ("Creating new Pinecone index '" ++ indexName ++ "' with "
             ++ toString dimRes.1 ++ " dimensions..."),
           .remoteCreateIndex indexName dimRes.1 "cosine" cloud region,
           .log .info "Pinecone index created successfully.",
           .log .info "Creating VectorStoreIndex and ingesting documents into Pinecone...",
           .remoteEmbedUpsert indexName n,
           .log .info "--- INGESTION COMPLETE ---"]
        world := (indexName, { dim := dimRes.1, metric := "cosine", vectorCount := n })
          :: deleteIndex indexName w1 }

/-! ## Concrete sample data for witnesses and counterexamples -/

/-- An environment with every variable the repository reads set to a
truthy value. -/
def envFull : Env := fun k =>
  if k = "PINECONE_INDEX_NAME" then some "paul-allen" else
  if k = "PINECONE_API_KEY" then some "pk-123" else
  if k = "PINECONE_REGION" then some "us-east-1" else
  if k = "PINECONE_CLOUD" then some "aws" else
  if k = "OPENAI_API_KEY" then some "sk-456" else none

/-- `envFull` with one variable removed. -/
def envWithout (k : String) : Env := fun x => if x = k then none else envFull x

/-- `envFull` with `EMBEDDING_DIM` set to a non-integer string. -/
def envBadDim : Env := fun x =>
  if x = "EMBEDDING_DIM" then some "abc" else envFull x

/-- A classifier that always matches the on-topic route. -/
def classifyOnTopic : String → Option String := fun _ => some "paul_allen_questions"

/-- A classifier that never matches any route. -/
def classifyNoMatch : String → Option String := fun _ => none

/-- An agent whose stream yields three tokens and completes. -/
def sampleAgent : Agent := ⟨fun _ => .ok ["Paul", " ", "Allen"]⟩

/-- An agent whose `stream_chat` call raises. -/
def failingAgent : Agent := ⟨fun _ => .errCall "boom"⟩

/-- An agent whose generator yields one token and then raises. -/
def midFailAgent : Agent := ⟨fun _ => .errAfter ["Paul"] "boom"⟩

/-- The default input-file path of the ingestion CLI. -/
def defaultInputFile : String := "./data_ingest/paul_allen_data.txt"

/-! ## Helper lemmas -/

/-- The accumulator returned by the streaming loop is the left fold of the
tokens onto the starting accumulator — i.e. the concatenation in emission
order. -/
theorem streamLoop_fst (acc : String) (ts : List String) :
    (streamLoop acc ts).1 = ts.foldl (· ++ ·) acc := by
  induction ts generalizing acc with
  | nil => rfl
  | cons t ts ih => simpa [streamLoop] using ih (acc ++ t)

/-- Looking up an index right after inserting it. -/
theorem lookupIndex_cons_self (n : String) (st : IndexState) (w : PineconeWorld) :
    lookupIndex n ((n, st) :: w) = some st := by
  simp [lookupIndex]

/-- Deleting an index twice is the same as deleting it once. -/
theorem deleteIndex_idem (n : String) (w : PineconeWorld) :
    deleteIndex n (deleteIndex n w) = deleteIndex n w := by
  simp [deleteIndex, List.filter_filter]

/-- The last element of a nonempty list ending in a singleton append. -/
theorem getLast?_cons_append_singleton {α : Type} (x : α) (l : List α) (a : α) :
    (x :: (l ++ [a])).getLast? = some a := by
  induction l generalizing x with
  | nil => rfl
  | cons y ys ih => simpa [List.cons_append] using ih y

/-! ## Claims -/

/-- **C10** — The hard-coded list `allowed_route_names` in the message
handler (`src/app.py` line 145) is exactly the set of route names of the
static route table `allowed_routes` (`src/router.py` line 54): every listed
name names a `Route`, and every `Route`'s name is listed. -/
theorem allowed_names_match_route_table :
    (∀ n ∈ allowed_route_names, ∃ r ∈ allowed_routes, r.name = n) ∧
    (∀ r ∈ allowed_routes, r.name ∈ allowed_route_names) := by
  decide

/-- **C4** — For every incoming message whose router classification is not
one of the four allowed route names (including the no-match outcome
`none`), `on_message` sends exactly the fixed refusal reply and returns
without invoking the reasoning agent: its whole trace is the classifier
call followed by the refusal send — no `stream_chat` call, no streamed
token, whatever the session's agent slot holds. -/
theorem disallowed_route_refused (classify : String → Option String)
    (agent : Option Agent) (content : String)
    (h : ∀ s ∈ allowed_route_names, classify content ≠ some s) :
    on_message true classify agent content =
      (.returned, [.netCall "router_classify", .send .plain refusalText]) := by
  have hfalse : (allowed_route_names.any fun s => classify content = some s) = false := by
    rw [List.any_eq_false]
    intro s hs
    simpa using h s hs
  simp [on_message, hfalse]

/-- Witness for C4: the unrelated message of spec §8 with a no-match
classifier is refused. -/
theorem disallowed_route_refused_witness :
    (∀ s ∈ allowed_route_names, classifyNoMatch "what's the weather in Paris?" ≠ some s) ∧
    on_message true classifyNoMatch none "what's the weather in Paris?" =
      (.returned, [.netCall "router_classify", .send .plain refusalText]) :=
  ⟨by decide, disallowed_route_refused classifyNoMatch none _ (by decide)⟩

/-- **C5** — For every allowed query whose agent stream produces a finite
sequence of text fragments, `on_message` returns normally and the final
displayed message content — the argument of the trailing `msg.update()` —
equals the concatenation of all streamed fragments in emission order. -/
theorem streamed_message_final_content (classify : String → Option String)
    (a : Agent) (content : String) (ts : List String)
    (hroute : ∃ s ∈ allowed_route_names, classify content = some s)
    (hstream : a.streamChat content = .ok ts) :
    (on_message true classify (some a) content).1 = .returned ∧
    (on_message true classify (some a) content).2.getLast? =
      some (.updateMsg (ts.foldl (· ++ ·) "")) := by
  have hany : (allowed_route_names.any fun s => classify content = some s) = true := by
    rw [List.any_eq_true]
    obtain ⟨s, hs, he⟩ := hroute
    exact ⟨s, hs, by simp [he]⟩
  refine ⟨by simp [on_message, hany, hstream], ?_⟩
  simp [on_message, hany, hstream, streamLoop_fst, getLast?_cons_append_singleton]

/-- Witness for C5: an on-topic query streamed as three fragments ends in
an update carrying their concatenation. -/
theorem streamed_message_final_content_witness :
    (∃ s ∈ allowed_route_names, classifyOnTopic "who is paul allen?" = some s) ∧
    ((on_message true classifyOnTopic (some sampleAgent) "who is paul allen?").1
        = .returned ∧
      (on_message true classifyOnTopic (some sampleAgent) "who is paul allen?").2.getLast? =
        some (.updateMsg (["Paul", " ", "Allen"].foldl (· ++ ·) ""))) :=
  ⟨⟨"paul_allen_questions", by decide⟩,
   streamed_message_final_content classifyOnTopic sampleAgent _ _
     ⟨"paul_allen_questions", by decide⟩ rfl⟩

/-- **C3 counterexample** — the claim says every message received while
the agent is unset yields the fixed "agent not available" reply; but a
message whose classification matches no allowed route yields the refusal
reply instead, and the "agent not available" text never appears in the
trace. -/
theorem agent_unset_not_always_unavailable_reply :
    (on_message true classifyNoMatch none "what's the weather in Paris?").2 =
      [.netCall "router_classify", .send .plain refusalText] ∧
    AppEvent.send .plain agentUnavailableText ∉
      (on_message true classifyNoMatch none "what's the weather in Paris?").2 := by
  decide

/-- **C3 (amended)** — If agent construction failed at session start (the
agent slot is unset), then every message whose router classification is
one of the allowed route names yields exactly the fixed "agent not
available" reply, and the handler returns normally, so the session stays
alive. (Messages with disallowed classifications get the refusal reply
instead.) -/
theorem agent_unset_allowed_message_reply (classify : String → Option String)
    (content : String)
    (h : ∃ s ∈ allowed_route_names, classify content = some s) :
    on_message true classify none content =
      (.returned, [.netCall "router_classify", .send .plain agentUnavailableText]) := by
  have hany : (allowed_route_names.any fun s => classify content = some s) = true := by
    rw [List.any_eq_true]
    obtain ⟨s, hs, he⟩ := h
    exact ⟨s, hs, by simp [he]⟩
  simp [on_message, hany]

/-- Witness for the amended C3: with the agent unset, an on-topic greeting
gets the fixed unavailability reply and the handler returns. -/
theorem agent_unset_allowed_message_reply_witness :
    (∃ s ∈ allowed_route_names, classifyOnTopic "hello" = some s) ∧
    on_message true classifyOnTopic none "hello" =
      (.returned, [.netCall "router_classify", .send .plain agentUnavailableText]) :=
  ⟨⟨"paul_allen_questions", by decide⟩,
   agent_unset_allowed_message_reply classifyOnTopic "hello"
     ⟨"paul_allen_questions", by decide⟩⟩

/-- **C2 counterexample** — the claim says every error raised during
response streaming is caught at the session boundary and surfaced as an
apology; but `on_message` has no exception handler around
`agent.stream_chat` or the token loop: with an agent whose stream raises,
the handler propagates the exception and sends no message at all. -/
theorem streaming_error_uncaught :
    (on_message true classifyOnTopic (some failingAgent) "who is paul allen?").1
        = .raised "boom" ∧
    ∀ e ∈ (on_message true classifyOnTopic (some failingAgent) "who is paul allen?").2,
      e.isSend = false := by
  decide

/-- **C2 (amended)** — Errors raised during agent construction are caught
at the session boundary (`on_chat_start`'s `try`/`except`), logged, and
surfaced to the user as an apology message, with the handler returning
normally; but errors raised during response streaming propagate uncaught
out of `on_message` — the only message possibly sent by then is the empty
placeholder, never an apology. -/
theorem session_boundary_error_handling (env : Env) (e : String)
    (hkey : truthy (env "PINECONE_API_KEY") = true)
    (hreg : truthy (env "PINECONE_REGION") = true) :
    ((on_chat_start env (.error e)).1 = none ∧
      AppEvent.send .plain ("Sorry, an error occurred during setup: " ++ e)
        ∈ (on_chat_start env (.error e)).2) ∧
    (∀ (classify : String → Option String) (a : Agent) (content : String),
      (∃ s ∈ allowed_route_names, classify content = some s) →
      (a.streamChat content = .errCall e ∨
        ∃ ts, a.streamChat content = .errAfter ts e) →
      (on_message true classify (some a) content).1 = .raised e ∧
      ∀ k c, AppEvent.send k c ∈ (on_message true classify (some a) content).2 →
        c = "") := by
  constructor
  · constructor
    · simp [on_chat_start, hkey, hreg]
    · simp [on_chat_start, hkey, hreg, introEvents]
  · intro classify a content hroute hfail
    have hany : (allowed_route_names.any fun s => classify content = some s) = true := by
      rw [List.any_eq_true]
      obtain ⟨s, hs, he⟩ := hroute
      exact ⟨s, hs, by simp [he]⟩
    rcases hfail with hcall | ⟨ts, hafter⟩
    · refine ⟨by simp [on_message, hany, hcall], ?_⟩
      intro k c hc
      simp [on_message, hany, hcall] at hc
    · refine ⟨by simp [on_message, hany, hafter], ?_⟩
      intro k c hc
      simp [on_message, hany, hafter] at hc
      have : ∀ (acc : String) t, AppEvent.send k c ∈ (streamLoop acc t).2 → False := by
        intro acc t
        induction t generalizing acc with
        | nil => simp [streamLoop]
        | cons x xs ih =>
          simp only [streamLoop, List.mem_cons]
          rintro (h | h)
          · cases h
          · exact ih (acc ++ x) h
      rcases hc with ⟨hk, hc⟩ | hc
      · exact hc
      · exact absurd hc (fun h => this "" ts h)

/-- Witness for the amended C2: with a full environment, a failed build is
surfaced as an apology and the session has no agent; a mid-stream failure
makes the handler raise. -/
theorem session_boundary_error_handling_witness :
    ((on_chat_start envFull (.error "boom")).1 = none ∧
      AppEvent.send .plain ("Sorry, an error occurred during setup: " ++ "boom")
        ∈ (on_chat_start envFull (.error "boom")).2) ∧
    (on_message true classifyOnTopic (some midFailAgent) "who is paul allen?").1
        = .raised "boom" :=
  ⟨(session_boundary_error_handling envFull "boom" (by decide) (by decide)).1,
   ((session_boundary_error_handling envFull "boom" (by decide) (by decide)).2
      classifyOnTopic midFailAgent "who is paul allen?"
      ⟨"paul_allen_questions", by decide⟩ (Or.inr ⟨["Paul"], rfl⟩)).1⟩

/-- **C8** — On every fresh chat session, whatever the environment, the
agent-build outcome, the classifier, and the incoming messages, the first
three events of the session trace are exactly the three introductory UI
sends in order — branding/header, image, welcome text — and the fourth is
the setup log, so exactly three messages are emitted before agent
construction is attempted and before any user input is processed. -/
theorem session_start_three_intro_messages (env : Env)
    (build : Except String Agent) (routerDefined : Bool)
    (classify : String → Option String) (msgs : List String) :
    (runSession env build routerDefined classify msgs).take 4 =
      [.send .header "", .send .image "", .send .plain welcomeText,
       .log .info "Connecting to Pinecone and setting up the agent..."] ∧
    (((runSession env build routerDefined classify msgs).take 4).countP
        (fun ev => ev.isSend)) = 3 := by
  have htake : (runSession env build routerDefined classify msgs).take 4 =
      [.send .header "", .send .image "", .send .plain welcomeText,
       .log .info "Connecting to Pinecone and setting up the agent..."] := by
    unfold runSession on_chat_start
    by_cases hc : truthy (env "PINECONE_API_KEY") = true
        ∧ truthy (env "PINECONE_REGION") = true <;>
      cases build <;> simp [introEvents, hc, List.take]
  refine ⟨htake, ?_⟩
  rw [htake]
  decide

/-- **C1 counterexample** — the claim requires every missing required
variable (including `PINECONE_REGION` for ingestion) to make the entry
point fail before any network call; but the ingestion script only
validates `PINECONE_INDEX_NAME`, `PINECONE_API_KEY` and `OPENAI_API_KEY`:
with `PINECONE_REGION` unset it does not fail at all and still issues
remote calls (`pc.list_indexes()` among them). -/
theorem missing_region_network_attempted :
    envWithout "PINECONE_REGION" "PINECONE_REGION" = none ∧
    (ingestMain (envWithout "PINECONE_REGION") defaultInputFile (fun _ => true)
        ["doc"] (fun _ => 5) []).result = .normal ∧
    IngestEvent.remoteListIndexes ∈
      (ingestMain (envWithout "PINECONE_REGION") defaultInputFile (fun _ => true)
        ["doc"] (fun _ => 5) []).trace := by
  decide

/-- **C1 (amended)** — The required-variable checks that do run happen
before any network call: the ingestion script raises its validation error
with no remote call when any of `PINECONE_INDEX_NAME`, `PINECONE_API_KEY`,
`OPENAI_API_KEY` is missing (`PINECONE_REGION` and `PINECONE_CLOUD` are
not validated); the chat application's module initialization raises with
no network call when `OPENAI_API_KEY` is missing, and its session setup
aborts before any network call when `PINECONE_API_KEY` or
`PINECONE_REGION` is missing. -/
theorem required_env_checked_before_network (env : Env) :
    (¬(truthy (env "PINECONE_INDEX_NAME") = true ∧
        truthy (env "PINECONE_API_KEY") = true ∧
        truthy (env "OPENAI_API_KEY") = true) →
      ∀ inputFile fileExists docs chunkCount w,
        (ingestMain env inputFile fileExists docs chunkCount w).result =
            .raised ingestValidationMsg ∧
        ∀ ev ∈ (ingestMain env inputFile fileExists docs chunkCount w).trace,
          ev.isRemote = false) ∧
    (truthy (env "OPENAI_API_KEY") = false →
      ∀ rBuild, (moduleInit env rBuild).1 =
          .error "OPENAI_API_KEY not found in .env file." ∧
        ∀ ev ∈ (moduleInit env rBuild).2, ev.isNet = false) ∧
    ((truthy (env "PINECONE_API_KEY") = false ∨
        truthy (env "PINECONE_REGION") = false) →
      ∀ build, (on_chat_start env build).1 = none ∧
        ∀ ev ∈ (on_chat_start env build).2, ev.isNet = false) := by
  refine ⟨?_, ?_, ?_⟩
  · intro h inputFile fileExists docs chunkCount w
    have hcond : (truthy (env "PINECONE_INDEX_NAME") &&
        truthy (env "PINECONE_API_KEY") && truthy (env "OPENAI_API_KEY")) = false := by
      cases h1 : truthy (env "PINECONE_INDEX_NAME") <;>
        cases h2 : truthy (env "PINECONE_API_KEY") <;>
        cases h3 : truthy (env "OPENAI_API_KEY") <;> simp_all
    refine ⟨by simp [ingestMain, hcond], ?_⟩
    intro ev hev
    simp only [ingestMain, hcond] at hev
    simp only [Bool.not_false, if_pos] at hev
    simp only [List.mem_map] at hev
    obtain ⟨p, _, rfl⟩ := hev
    rfl
  · intro h rBuild
    refine ⟨by simp [moduleInit, h], ?_⟩
    intro ev hev
    simp only [moduleInit, h] at hev
    simp only [Bool.false_eq_true, if_neg, not_false_eq_true] at hev
    simp only [List.mem_map] at hev
    obtain ⟨p, _, rfl⟩ := hev
    rfl
  · intro h build
    have hb : (truthy (env "PINECONE_API_KEY") &&
        truthy (env "PINECONE_REGION")) = false := by
      rcases h with h | h <;> simp [h]
    refine ⟨by simp [on_chat_start, hb], ?_⟩
    intro ev hev
    simp [on_chat_start, hb, introEvents] at hev
    rcases hev with rfl | rfl | rfl | rfl | rfl | rfl <;> rfl

/-- Witness for the amended C1: each check fires on a concrete environment
missing exactly that variable, with the stated error and no network
events. -/
theorem required_env_checked_before_network_witness :
    ((ingestMain (envWithout "PINECONE_API_KEY") defaultInputFile (fun _ => true)
        ["doc"] (fun _ => 5) []).result = .raised ingestValidationMsg) ∧
    ((moduleInit (envWithout "OPENAI_API_KEY") (.ok ())).1 =
        .error "OPENAI_API_KEY not found in .env file.") ∧
    ((on_chat_start (envWithout "PINECONE_REGION") (.ok sampleAgent)).1 = none) :=
  ⟨((required_env_checked_before_network (envWithout "PINECONE_API_KEY")).1
      (by decide) defaultInputFile (fun _ => true) ["doc"] (fun _ => 5) []).1,
   ((required_env_checked_before_network (envWithout "OPENAI_API_KEY")).2.1
      (by decide) (.ok ())).1,
   ((required_env_checked_before_network (envWithout "PINECONE_REGION")).2.2
      (Or.inr (by decide)) (.ok sampleAgent)).1⟩

/-- **C7** — For every input-file path that does not exist on the local
filesystem, the ingestion script terminates with a nonzero process exit
status, performs no remote call (no index listing, deletion, creation,
embedding, or upsert), and leaves the remote state untouched. -/
theorem missing_input_file_exits_nonzero (env : Env) (inputFile : String)
    (fileExists : String → Bool) (docs : List String)
    (chunkCount : List String → Nat) (w : PineconeWorld)
    (hf : fileExists inputFile = false) :
    (ingestMain env inputFile fileExists docs chunkCount w).result.exitCode ≠ 0 ∧
    (∀ ev ∈ (ingestMain env inputFile fileExists docs chunkCount w).trace,
      ev.isRemote = false) ∧
    (ingestMain env inputFile fileExists docs chunkCount w).world = w := by
  cases hv : (truthy (env "PINECONE_INDEX_NAME") &&
      truthy (env "PINECONE_API_KEY") && truthy (env "OPENAI_API_KEY")) with
  | false =>
    refine ⟨by simp [ingestMain, hv, ExitResult.exitCode], ?_,
      by simp [ingestMain, hv]⟩
    intro ev hev
    simp only [ingestMain, hv, Bool.not_false, if_pos, List.mem_map] at hev
    obtain ⟨p, _, rfl⟩ := hev
    rfl
  | true =>
    refine ⟨by simp [ingestMain, hv, hf, ExitResult.exitCode], ?_,
      by simp [ingestMain, hv, hf]⟩
    intro ev hev
    simp [ingestMain, hv, hf] at hev
    rcases hev with ⟨p, q, _, rfl⟩ | rfl | rfl <;> rfl

/-- Witness for C7: with a full environment but a filesystem on which no
path exists, the run exits nonzero, touches nothing remote, and the
remote state is unchanged. -/
theorem missing_input_file_exits_nonzero_witness :
    (fun _ : String => false) defaultInputFile = false ∧
    ((ingestMain envFull defaultInputFile (fun _ => false) ["doc"] (fun _ => 5)
        []).result.exitCode ≠ 0 ∧
      (∀ ev ∈ (ingestMain envFull defaultInputFile (fun _ => false) ["doc"]
          (fun _ => 5) []).trace, ev.isRemote = false) ∧
      (ingestMain envFull defaultInputFile (fun _ => false) ["doc"] (fun _ => 5)
        []).world = []) :=
  ⟨rfl, missing_input_file_exits_nonzero envFull defaultInputFile (fun _ => false)
    ["doc"] (fun _ => 5) [] rfl⟩

/-- On a successful run (configuration valid, input file present) the
final remote state holds the configured index, freshly created with the
configured dimension and the chunk count of the input documents, on top of
the initial state with any previous index of that name removed. -/
theorem ingestMain_world_of_success (env : Env) (inputFile : String)
    (fileExists : String → Bool) (docs : List String)
    (chunkCount : List String → Nat) (w : PineconeWorld)
    (hv : (truthy (env "PINECONE_INDEX_NAME") && truthy (env "PINECONE_API_KEY")
        && truthy (env "OPENAI_API_KEY")) = true)
    (hf : fileExists inputFile = true) :
    (ingestMain env inputFile fileExists docs chunkCount w).result = .normal ∧
    (ingestMain env inputFile fileExists docs chunkCount w).world =
      ((env "PINECONE_INDEX_NAME").getD "",
        { dim := (embeddingDimOf (env "EMBEDDING_DIM")).1, metric := "cosine",
          vectorCount := chunkCount docs }) ::
        deleteIndex ((env "PINECONE_INDEX_NAME").getD "") w := by
  cases he : indexExists ((env "PINECONE_INDEX_NAME").getD "") w <;>
    simp [ingestMain, hv, hf, he, deleteIndex_idem]

/-- **C6** — Ingestion is idempotent with respect to the final index
state: a successful run leaves the configured index holding exactly the
configured dimensionality and the chunk count of the input (never merged
with prior contents), a pre-existing index of that name is deleted (the
delete call appears in the trace) before recreation, and a second run with
the same input succeeds and leaves the index in exactly the same state. -/
theorem ingestion_idempotent_full_rebuild (env : Env) (inputFile : String)
    (fileExists : String → Bool) (docs : List String)
    (chunkCount : List String → Nat) (w : PineconeWorld)
    (hv : (truthy (env "PINECONE_INDEX_NAME") && truthy (env "PINECONE_API_KEY")
        && truthy (env "OPENAI_API_KEY")) = true)
    (hf : fileExists inputFile = true) :
    (ingestMain env inputFile fileExists docs chunkCount w).result = .normal ∧
    lookupIndex ((env "PINECONE_INDEX_NAME").getD "")
        (ingestMain env inputFile fileExists docs chunkCount w).world =
      some { dim := (embeddingDimOf (env "EMBEDDING_DIM")).1, metric := "cosine",
             vectorCount := chunkCount docs } ∧
    (ingestMain env inputFile fileExists docs chunkCount
        (ingestMain env inputFile fileExists docs chunkCount w).world).result =
      .normal ∧
    lookupIndex ((env "PINECONE_INDEX_NAME").getD "")
        (ingestMain env inputFile fileExists docs chunkCount
          (ingestMain env inputFile fileExists docs chunkCount w).world).world =
      lookupIndex ((env "PINECONE_INDEX_NAME").getD "")
        (ingestMain env inputFile fileExists docs chunkCount w).world ∧
    (indexExists ((env "PINECONE_INDEX_NAME").getD "") w = true →
      IngestEvent.remoteDeleteIndex ((env "PINECONE_INDEX_NAME").getD "")
        ∈ (ingestMain env inputFile fileExists docs chunkCount w).trace) := by
  obtain ⟨hr1, hw1⟩ :=
    ingestMain_world_of_success env inputFile fileExists docs chunkCount w hv hf
  obtain ⟨hr2, hw2⟩ :=
    ingestMain_world_of_success env inputFile fileExists docs chunkCount
      (ingestMain env inputFile fileExists docs chunkCount w).world hv hf
  refine ⟨hr1, ?_, hr2, ?_, ?_⟩
  · rw [hw1, lookupIndex_cons_self]
  · rw [hw2, hw1, lookupIndex_cons_self, lookupIndex_cons_self]
  · intro he
    simp [ingestMain, hv, hf, he]

/-- Witness for C6: a concrete rebuild over a remote state that already
holds a stale index of the configured name with a different dimension and
count. -/
theorem ingestion_idempotent_full_rebuild_witness :
    (ingestMain envFull defaultInputFile (fun _ => true) ["doc"] (fun _ => 5)
        [("paul-allen", { dim := 8, metric := "cosine", vectorCount := 2 })]).result =
      .normal ∧
    lookupIndex ((envFull "PINECONE_INDEX_NAME").getD "")
        (ingestMain envFull defaultInputFile (fun _ => true) ["doc"] (fun _ => 5)
          [("paul-allen", { dim := 8, metric := "cosine", vectorCount := 2 })]).world =
      some { dim := (embeddingDimOf (envFull "EMBEDDING_DIM")).1, metric := "cosine",
             vectorCount := (fun _ => 5) ["doc"] } ∧
    (ingestMain envFull defaultInputFile (fun _ => true) ["doc"] (fun _ => 5)
        (ingestMain envFull defaultInputFile (fun _ => true) ["doc"] (fun _ => 5)
          [("paul-allen", { dim := 8, metric := "cosine", vectorCount := 2 })]).world).result =
      .normal ∧
    lookupIndex ((envFull "PINECONE_INDEX_NAME").getD "")
        (ingestMain envFull defaultInputFile (fun _ => true) ["doc"] (fun _ => 5)
          (ingestMain envFull defaultInputFile (fun _ => true) ["doc"] (fun _ => 5)
            [("paul-allen", { dim := 8, metric := "cosine", vectorCount := 2 })]).world).world =
      lookupIndex ((envFull "PINECONE_INDEX_NAME").getD "")
        (ingestMain envFull defaultInputFile (fun _ => true) ["doc"] (fun _ => 5)
          [("paul-allen", { dim := 8, metric := "cosine", vectorCount := 2 })]).world ∧
    (indexExists ((envFull "PINECONE_INDEX_NAME").getD "")
        [("paul-allen", { dim := 8, metric := "cosine", vectorCount := 2 })] = true →
      IngestEvent.remoteDeleteIndex ((envFull "PINECONE_INDEX_NAME").getD "")
        ∈ (ingestMain envFull defaultInputFile (fun _ => true) ["doc"] (fun _ => 5)
            [("paul-allen", { dim := 8, metric := "cosine", vectorCount := 2 })]).trace) :=
  ingestion_idempotent_full_rebuild envFull defaultInputFile (fun _ => true)
    ["doc"] (fun _ => 5)
    [("paul-allen", { dim := 8, metric := "cosine", vectorCount := 2 })]
    (by decide) rfl

/-- **C9 counterexample** — the claim says a malformed `EMBEDDING_DIM`
makes the entry points fall back to 1024 *and log a warning*; the fallback
to 1024 does happen, but the log is emitted at error level
(`logging.error`), and no warning-level entry appears anywhere in the
module-initialization trace. -/
theorem dim_fallback_logs_error_not_warning :
    envBadDim "EMBEDDING_DIM" = some "abc" ∧
    pyInt "abc" = none ∧
    appInitDim (moduleInit envBadDim (.ok ())).1 = 1024 ∧
    ((moduleInit envBadDim (.ok ())).2.all fun ev => !ev.isWarningLog) = true ∧
    AppEvent.log .error dimFallbackMsg ∈ (moduleInit envBadDim (.ok ())).2 := by
  decide

/-- **C9 (amended)** — For every value of `EMBEDDING_DIM` that is not a
valid integer, both entry points fall back to the documented default 1024
and log an **error-level** message (not a warning): the chat application's
module initialization publishes dimension 1024 and its trace contains the
error log, and every run of the ingestion script's trace contains the same
error log; when the variable is unset, the default 1024 is applied with no
log. -/
theorem embedding_dim_fallback_behaviour (env : Env) (s : String)
    (hset : env "EMBEDDING_DIM" = some s) (hbad : pyInt s = none) :
    embeddingDimOf (env "EMBEDDING_DIM") = (1024, some .error) ∧
    (∀ rBuild, truthy (env "OPENAI_API_KEY") = true →
      appInitDim (moduleInit env rBuild).1 = 1024 ∧
      AppEvent.log .error dimFallbackMsg ∈ (moduleInit env rBuild).2) ∧
    (∀ inputFile fileExists docs chunkCount w,
      IngestEvent.log .error dimFallbackMsg
        ∈ (ingestMain env inputFile fileExists docs chunkCount w).trace) ∧
    (∀ envU : Env, envU "EMBEDDING_DIM" = none →
      embeddingDimOf (envU "EMBEDDING_DIM") = (1024, none)) := by
  have hdim : embeddingDimOf (env "EMBEDDING_DIM") = (1024, some .error) := by
    simp [embeddingDimOf, hset, hbad]
  have hlogs : embeddingDimLogs (env "EMBEDDING_DIM") = [(.error, dimFallbackMsg)] := by
    simp [embeddingDimLogs, hdim]
  refine ⟨hdim, ?_, ?_, ?_⟩
  · intro rBuild hok
    cases rBuild <;>
      simp [appInitDim, moduleInit, hok, hdim, hlogs]
  · intro inputFile fileExists docs chunkCount w
    cases hv : (truthy (env "PINECONE_INDEX_NAME") && truthy (env "PINECONE_API_KEY")
        && truthy (env "OPENAI_API_KEY")) with
    | false => simp [ingestMain, hv, hlogs]
    | true =>
      cases hff : fileExists inputFile with
      | false => simp [ingestMain, hv, hff, hlogs]
      | true =>
        cases he : indexExists ((env "PINECONE_INDEX_NAME").getD "") w <;>
          simp [ingestMain, hv, hff, he, hlogs]
  · intro envU h
    simp [embeddingDimOf, h]

/-- Witness for the amended C9: the concrete environment carrying
`EMBEDDING_DIM="abc"` falls back to dimension 1024 with an error log. -/
theorem embedding_dim_fallback_behaviour_witness :
    envBadDim "EMBEDDING_DIM" = some "abc" ∧ pyInt "abc" = none ∧
    embeddingDimOf (envBadDim "EMBEDDING_DIM") = (1024, some .error) :=
  ⟨rfl, rfl, (embedding_dim_fallback_behaviour envBadDim "abc" rfl rfl).1⟩

end PaulAllenAgent
